import Mathlib

/-!
Verification of the newscrapy extraction pipeline.

Shallow embedding of the source modules:
  article.py   (Article, LaRepubblicaArticle)
  extractor.py (LaRepubblicaExtractor)
  utility.py   (datespan)

External collaborators (HTTP fetch via parser.get_page_html and the
BeautifulSoup markup query layer) are modelled at their interface
boundary: a fetch function of type String to Option Node resolves a URL
to a parsed node tree or to failure (None / empty content), and the Node
type below models a parsed markup tree with the query operations the
source uses (find by tag, find by tag and attribute, find_all, text,
attribute read).  Exceptions are modelled explicitly: ArticleException
for the exception class of article.py, PyErr for uncaught Python errors
(AttributeError, KeyError, IndexError).  Mutable object state is passed
explicitly; an uncaught exception is the err component of a result pair,
with the article list accumulated so far kept alongside, matching the
way the Python extractor object retains its articles attribute when a
call raises.
-/

mutual
/-- A parsed markup node: either a text node or an element with a tag,
an attribute list and child nodes.  Children are a mutually inductive
list so that the query functions below are structurally recursive. -/
inductive Node where
  | txt (s : String)
  | elem (tag : String) (attrs : List (String × String)) (children : NodeList)
inductive NodeList where
  | nil
  | cons (head : Node) (tail : NodeList)
end

/-- Build a NodeList from a plain list (notation convenience only). -/
def nodeList : List Node → NodeList
  | [] => NodeList.nil
  | n :: rest => NodeList.cons n (nodeList rest)

/-- Element with the given tag name? -/
def Node.matchesTag (t : String) : Node → Bool
  | .txt _ => false
  | .elem tg _ _ => tg = t

/-- Element with the given tag whose attribute k equals v?  Models a
BeautifulSoup find with an attribute dictionary. -/
def Node.matchesTagAttr (t k v : String) : Node → Bool
  | .txt _ => false
  | .elem tg attrs _ => tg = t && attrs.lookup k == some v

mutual
/-- First node in the list (in document preorder) satisfying q,
searching each node itself and then its subtree. -/
def findNode (q : Node → Bool) : NodeList → Option Node
  | .nil => none
  | .cons n rest =>
    if q n then some n
    else
      match findSub q n with
      | some m => some m
      | none => findNode q rest

/-- First strict descendant of n satisfying q (document preorder). -/
def findSub (q : Node → Bool) : Node → Option Node
  | .txt _ => none
  | .elem _ _ ch => findNode q ch
end

mutual
/-- All nodes in the list and their subtrees satisfying q, preorder. -/
def findAllNodes (q : Node → Bool) : NodeList → List Node
  | .nil => []
  | .cons n rest =>
    (if q n then [n] else []) ++ findAllSub q n ++ findAllNodes q rest

/-- All strict descendants of n satisfying q, preorder. -/
def findAllSub (q : Node → Bool) : Node → List Node
  | .txt _ => []
  | .elem _ _ ch => findAllNodes q ch
end

mutual
/-- Concatenated text of a node list (BeautifulSoup text property). -/
def textOfList : NodeList → String
  | .nil => ""
  | .cons n rest => textOfNode n ++ textOfList rest

/-- Concatenated text of all text nodes in the subtree of n. -/
def textOfNode : Node → String
  | .txt s => s
  | .elem _ _ ch => textOfList ch
end

/-- soup.find(t) / tag attribute access: first descendant element with
tag t, or None. -/
def Node.findTag (n : Node) (t : String) : Option Node :=
  findSub (Node.matchesTag t) n

/-- soup.find(t, attrs) with a one-entry attribute dictionary. -/
def Node.findTagAttr (n : Node) (t k v : String) : Option Node :=
  findSub (Node.matchesTagAttr t k v) n

/-- soup.find_all(t): all descendant elements with tag t, preorder. -/
def Node.findAllTag (n : Node) (t : String) : List Node :=
  findAllSub (Node.matchesTag t) n

/-- tag.text -/
def Node.text (n : Node) : String :=
  textOfNode n

/-- tag.get(k): attribute lookup; None when absent (tag access raises
KeyError at the use sites, modelled there). -/
def Node.attr (n : Node) (k : String) : Option String :=
  match n with
  | .txt _ => none
  | .elem _ attrs _ => attrs.lookup k

/-- Python slice s[k:] on characters. -/
def pySliceFrom (s : String) (k : Nat) : String :=
  String.mk (s.data.drop k)

/-- Python slice s[:-k] on characters: empty when length is at most k. -/
def pySliceToNeg (s : String) (k : Nat) : String :=
  String.mk (s.data.take (s.data.length - k))

/-- Python slice s[-k:] on characters: the whole string when shorter. -/
def pySliceFromNeg (s : String) (k : Nat) : String :=
  String.mk (s.data.drop (s.data.length - k))

/-- Maximal digit runs of a character list, accumulator form:
models re.findall(digits pattern, text). -/
def digitRunsAux : List Char → List Char → List (List Char)
  | [], cur => if cur.isEmpty then [] else [cur.reverse]
  | c :: cs, cur =>
    if c.isDigit then digitRunsAux cs (c :: cur)
    else if cur.isEmpty then digitRunsAux cs []
    else cur.reverse :: digitRunsAux cs []

/-- re.findall(digits pattern, text): the maximal digit runs, in order. -/
def digitRuns (l : List Char) : List (List Char) :=
  digitRunsAux l []

/-- Numeric value of a digit run, accumulator form (python int). -/
def natOfDigitsAux : Nat → List Char → Nat
  | acc, [] => acc
  | acc, c :: cs => natOfDigitsAux (acc * 10 + (c.toNat - 48)) cs

/-- Numeric value of a digit run (python int on a digit string). -/
def natOfDigits (l : List Char) : Nat :=
  natOfDigitsAux 0 l

/-- article.py ArticleException: carries a human readable message. -/
structure ArticleException where
  msg : String
deriving DecidableEq

/-- Uncaught Python exceptions that escape the extractor code. -/
inductive PyErr where
  | attributeError
  | keyError
  | indexError
deriving DecidableEq

/-- The article record: one field per attribute set in Article init.
The source attribute named section is rendered sect (Lean keyword);
html holds the parsed tree of the downloaded page. -/
structure Article where
  url : String
  title : String
  description : String
  authors : String
  publish_date : String
  text : String
  sect : String
  subsection : String
  keywords : List String
  characters : List String
  image_url : String
  html : Node

/-- The empty document: the html attribute before download (the source
initializes it to an empty string, which parses to an empty tree). -/
def emptyDoc : Node :=
  Node.elem "[document]" [] NodeList.nil

/-- The fetch collaborator (parser.get_page_html composed with markup
parsing): None models both a failed request and empty content. -/
abbrev Fetch := String → Option Node

/-- Article.__init__ (article.py lines 77-99): raises ArticleException
when url is None or the empty string, otherwise stores url and sets
every other attribute to its empty default. -/
def Article.init (url : Option String) : Except ArticleException Article :=
  match url with
  | none => Except.error { msg := "ArticleException: Invalid URL" }
  | some u =>
    if u = "" then Except.error { msg := "ArticleException: Invalid URL" }
    else Except.ok
      { url := u, title := "", description := "", authors := "",
        publish_date := "", text := "", sect := "", subsection := "",
        keywords := [], characters := [], image_url := "", html := emptyDoc }

/-- LaRepubblicaArticle.__init__ (article.py lines 157-169): the base
initializer, then self.url = url[:-10] unconditionally. -/
def LaRepubblicaArticle.init (url : Option String) : Except ArticleException Article :=
  match Article.init url with
  | Except.error e => Except.error e
  | Except.ok a => Except.ok { a with url := pySliceToNeg a.url 10 }

/-- Article.download (article.py lines 112-126): store the fetched page
tree, raising ArticleException when no usable content came back. -/
def Article.download (fetch : Fetch) (self : Article) : Except ArticleException Article :=
  match fetch self.url with
  | some h => Except.ok { self with html := h }
  | none => Except.error { msg := "ArticleException: Article HTML is empty." }

/-- Title block (article.py line 211): soup.article.h1.text; None at
either step is an AttributeError, hence extraction failure. -/
def titleOf (soup : Node) : Option String :=
  (soup.findTag "article").bind fun art => (art.findTag "h1").map Node.text

/-- Description block (article.py lines 214-218): the page metadata
paragraph if present.  The preview fallback branch of the source assigns
only the local variable description, never self.description, so it has
no effect on the record and does not appear here. -/
def descriptionOf (soup : Node) : Option String :=
  (soup.findTagAttr "p" "itemprop" "description").map Node.text

/-- Authors block (article.py lines 221-225): the page author marker if
present.  As with the description, the preview fallback branch assigns
only a local variable and has no effect on the record. -/
def authorsOf (soup : Node) : Option String :=
  (soup.findTagAttr "em" "itemprop" "author").map Node.text

/-- Date block (article.py lines 228-231): with a preview, its time
element (AttributeError when absent); otherwise the structured page date
marker (AttributeError when absent).  none models extraction failure. -/
def publishDateOf (soup : Node) (preview_soup : Option Node) : Option String :=
  match preview_soup with
  | some ps => (ps.findTag "time").map Node.text
  | none => (soup.findTagAttr "time" "itemprop" "datePublished").map Node.text

/-- Text block (article.py lines 234-242): the articleBody span, else
the detail_body div, else the first paragraph of the nested content div;
the fallback steps are driven by element presence.  The outer none
models the AttributeError raised when the third step dereferences a
missing body-text or content container; the inner Option is the final
article_body value, which may be None (no assignment to self.text). -/
def textOf (soup : Node) : Option (Option String) :=
  match soup.findTagAttr "span" "itemprop" "articleBody" with
  | some ab => some (some ab.text)
  | none =>
    match soup.findTagAttr "div" "class" "detail_body" with
    | some ab => some (some ab.text)
    | none =>
      match soup.findTagAttr "div" "class" "body-text" with
      | none => none
      | some bt =>
        match bt.findTagAttr "div" "class" "content" with
        | none => none
        | some ct => some ((ct.findTag "p").map Node.text)

/-- Section block (article.py lines 245-250): section logo, else sport
logo, else no assignment. -/
def sectionOf (soup : Node) : Option String :=
  match soup.findTagAttr "a" "class" "section-logo" with
  | some s => some s.text
  | none => (soup.findTagAttr "a" "class" "sport-logo").map Node.text

/-- Subsection block (article.py lines 253-254): only with a preview;
preview_soup.span.text[5:], AttributeError (outer none) when the
preview has no span. -/
def subsectionOf (preview_soup : Option Node) : Option (Option String) :=
  match preview_soup with
  | none => some none
  | some ps =>
    match ps.findTag "span" with
    | none => none
    | some sp => some (some (pySliceFrom sp.text 5))

/-- Keywords block (article.py lines 257-265): the args definition list
if present (one keyword per dd), else the detail_tag container if
present (one keyword per link), else nothing.  These texts are appended
to the existing keywords list by parse. -/
def keywordsOf (soup : Node) : List String :=
  match soup.findTagAttr "dl" "class" "args" with
  | none =>
    match soup.findTagAttr "div" "class" "detail_tag" with
    | some kw => (kw.findAllTag "a").map Node.text
    | none => []
  | some kw => (kw.findAllTag "dd").map Node.text

/-- Characters block (article.py lines 268-271): the character
definition list if present, one name per dd, appended by parse. -/
def charactersOf (soup : Node) : List String :=
  match soup.findTagAttr "dl" "class" "character" with
  | some cs => (cs.findAllTag "dd").map Node.text
  | none => []

/-- Image block (article.py lines 274-276): the src attribute of an img
nested in a figure, only when both exist; a present img without a src
attribute raises KeyError (outer none). -/
def imageOf (soup : Node) : Option (Option String) :=
  match soup.findTag "figure" with
  | none => some none
  | some fig =>
    match fig.findTag "img" with
    | none => some none
    | some img =>
      match img.attr "src" with
      | none => none
      | some src => some (some src)

/-- LaRepubblicaArticle.parse (article.py lines 197-279).  The source is
a sequence of independent per-field blocks over soup and preview_soup
wrapped in one try/except that converts any exception into a single
ArticleException; the blocks only read the parsed trees, never the
fields they assign, so the parse result is assembled from the per-field
extractors above: extraction fails exactly when some block raises, and
on success each field receives its block value (or keeps its previous
value when the block assigns nothing).  Keywords and characters are
appended to the existing lists, exactly as the source do. -/
def LaRepubblicaArticle.parse (self : Article) (preview_soup : Option Node) :
    Except ArticleException Article :=
  let soup := self.html
  match titleOf soup, publishDateOf soup preview_soup, textOf soup,
      subsectionOf preview_soup, imageOf soup with
  | some title, some pdate, some textRes, some subsecRes, some imageRes =>
    Except.ok
      { self with
        title := title,
        description := (descriptionOf soup).getD self.description,
        authors := (authorsOf soup).getD self.authors,
        publish_date := pdate,
        text := textRes.getD self.text,
        sect := (sectionOf soup).getD self.sect,
        subsection := subsecRes.getD self.subsection,
        keywords := self.keywords ++ keywordsOf soup,
        characters := self.characters ++ charactersOf soup,
        image_url := imageRes.getD self.image_url }
  | _, _, _, _, _ =>
    Except.error { msg := "Error: Invalid parsing of article" }

/-- utility.datespan (utility.py lines 7-27) with the one-day step the
extractor uses, on dates as day ordinals: while current < end yield
current, current += 1.  Fueled so that the loop is structural; the fuel
end - start is exactly the number of iterations. -/
def datespanGo : Nat → Nat → Nat → List Nat
  | 0, _, _ => []
  | fuel + 1, current_date, end_date =>
    if current_date < end_date then
      current_date :: datespanGo fuel (current_date + 1) end_date
    else []

/-- utility.datespan with delta one day, dates as day ordinals. -/
def datespan (start_date end_date : Nat) : List Nat :=
  datespanGo (end_date - start_date) start_date end_date

/-- The archive listing URL for a date and page number
(extractor.py lines 190-192 and 217-219). -/
def archiveURL (year month day page : Nat) : String :=
  "http://ricerca.repubblica.it/repubblica/archivio/repubblica/" ++
    toString year ++ "/" ++ toString month ++ "/" ++ toString day ++
    "?page=" ++ toString page

/-- LaRepubblicaExtractor.archive_size (extractor.py lines 182-198):
fetch page 1 of the date; on failure return -1; otherwise take the last
digit run of the text of the first paragraph of the pagination element.
A missing pagination element or paragraph is an AttributeError and an
empty token list an IndexError, both propagating. -/
def archive_size (fetch : Fetch) (day month year : Nat) : Except PyErr Int :=
  match fetch (archiveURL year month day 1) with
  | none => Except.ok (-1)
  | some soup =>
    match soup.findTagAttr "div" "class" "pagination" with
    | none => Except.error PyErr.attributeError
    | some pagination =>
      match pagination.findTag "p" with
      | none => Except.error PyErr.attributeError
      | some p =>
        match (digitRuns p.text.data).getLast? with
        | none => Except.error PyErr.indexError
        | some run => Except.ok (Int.ofNat (natOfDigits run))

/-- art_html.a[href] (extractor.py lines 227-233): AttributeError when
the entry has no link, KeyError when the link has no href attribute. -/
def getHref (art_html : Node) : Except PyErr String :=
  match art_html.findTag "a" with
  | none => Except.error PyErr.attributeError
  | some a =>
    match a.attr "href" with
    | none => Except.error PyErr.keyError
    | some href => Except.ok href

/-- The entry exclusion condition (extractor.py lines 225-231),
evaluated left to right with short-circuiting exactly as the Python and
conjunction: secondary-media span inside the preview paragraph,
crossword label, search-result link suffix, paid-catalog link, preview
text length.  Dereferencing a missing p, span or link raises.  The
source conjunct art_html.p is not None comes after art_html.p.span has
already been dereferenced, so it is always true when reached. -/
def entryCond (art_html : Node) : Except PyErr Bool :=
  match art_html.findTag "p" with
  | none => Except.error PyErr.attributeError
  | some p =>
    if (p.findTag "span").isSome then Except.ok false
    else
      match art_html.findTag "span" with
      | none => Except.error PyErr.attributeError
      | some sp =>
        if pySliceFrom sp.text 5 = "Il Cruciverba" then Except.ok false
        else
          match getHref art_html with
          | Except.error e => Except.error e
          | Except.ok href =>
            if pySliceFromNeg href 16 = ".html?ref=search" then Except.ok false
            else if href = "https://quotidiano.repubblica.it/edicola/catalogogenerale.jsp?ref=search"
              then Except.ok false
            else Except.ok (decide (5 < p.text.length))

/-- The try block of page mode (extractor.py lines 232-236): construct
the article from the href, download its page, parse it with the preview
node.  Every failure inside is an ArticleException. -/
def buildArticle (fetch : Fetch) (href : String) (art_html : Node) :
    Except ArticleException Article :=
  match LaRepubblicaArticle.init (some href) with
  | Except.error e => Except.error e
  | Except.ok article =>
    match Article.download fetch article with
    | Except.error e => Except.error e
    | Except.ok article => LaRepubblicaArticle.parse article (some art_html)

/-- The page-mode entry loop (extractor.py lines 224-238): evaluate the
exclusion condition per entry (an error there is uncaught and ends the
loop, keeping the articles accumulated so far), then run the try block;
an ArticleException is logged and skipped, a success is appended. -/
def processEntries (fetch : Fetch) : List Node → List Article →
    List Article × Option PyErr
  | [], acc => (acc, none)
  | art_html :: rest, acc =>
    match entryCond art_html with
    | Except.error err => (acc, some err)
    | Except.ok false => processEntries fetch rest acc
    | Except.ok true =>
      match getHref art_html with
      | Except.error err => (acc, some err)
      | Except.ok href =>
        match buildArticle fetch href art_html with
        | Except.ok article => processEntries fetch rest (acc ++ [article])
        | Except.error _ => processEntries fetch rest acc

/-- Page mode of LaRepubblicaExtractor.extract_articles (extractor.py
lines 216-238): fetch the listing page (silently returning on failure),
collect its article entries and run the entry loop. -/
def extract_articles_page (fetch : Fetch) (day month year page_num : Nat)
    (articles : List Article) : List Article × Option PyErr :=
  match fetch (archiveURL year month day page_num) with
  | none => (articles, none)
  | some soup => processEntries fetch (soup.findAllTag "article") articles

/-- Sequential execution of one traversal step per item, stopping at the
first uncaught exception while keeping the articles accumulated so far:
the semantics of the Python for loops in day and range mode. -/
def foldSteps {β : Type} (step : List Article → β → List Article × Option PyErr) :
    List β → List Article → List Article × Option PyErr
  | [], acc => (acc, none)
  | b :: l, acc =>
    match step acc b with
    | (acc2, none) => foldSteps step l acc2
    | (acc2, some e) => (acc2, some e)

/-- range(1, pages + 1) of day mode (extractor.py line 247). -/
def pageRange (pages : Int) : List Nat :=
  if pages ≤ 0 then [] else (List.range pages.toNat).map (fun i => i + 1)

/-- Day mode of extract_articles (extractor.py lines 244-248): resolve
the page count (propagating its uncaught errors), then run page mode for
every page number from 1 to the count. -/
def extract_articles_day (fetch : Fetch) (day month year : Nat)
    (articles : List Article) : List Article × Option PyErr :=
  match archive_size fetch day month year with
  | Except.error err => (articles, some err)
  | Except.ok pages =>
    foldSteps (fun acc i => extract_articles_page fetch day month year i acc)
      (pageRange pages) articles

/-- Range mode of extract_articles (extractor.py lines 239-243): for
each date yielded by datespan over the two dates with a one-day step,
run day mode on that date.  Dates are day ordinals; toDMY renders an
ordinal as the (day, month, year) triple the recursive call receives,
modelling the datetime date attributes. -/
def extract_articles_range (fetch : Fetch) (toDMY : Nat → Nat × Nat × Nat)
    (start_date end_date : Nat) (articles : List Article) :
    List Article × Option PyErr :=
  foldSteps
    (fun acc curr =>
      extract_articles_day fetch (toDMY curr).1 (toDMY curr).2.1 (toDMY curr).2.2 acc)
    (datespan start_date end_date) articles

/-- LaRepubblicaExtractor.extract_articles (extractor.py lines 200-248):
mode dispatch on the optional arguments.  An explicit page number takes
priority, then a fully supplied end date selects range mode (fromYMD
models the datetime date constructor turning day, month, year into a
day ordinal), otherwise day mode. -/
def extract_articles (fetch : Fetch) (toDMY : Nat → Nat × Nat × Nat)
    (fromYMD : Nat → Nat → Nat → Nat) (day month year : Nat)
    (page_num : Option Nat) (day_end month_end year_end : Option Nat)
    (articles : List Article) : List Article × Option PyErr :=
  match page_num with
  | some p => extract_articles_page fetch day month year p articles
  | none =>
    match day_end, month_end, year_end with
    | some de, some me, some ye =>
      extract_articles_range fetch toDMY (fromYMD year month day) (fromYMD ye me de) articles
    | _, _, _ => extract_articles_day fetch day month year articles

/-! ### Concrete inputs used by counterexamples and witnesses -/

/-- A fetch collaborator for which every request fails. -/
def fetchNone : Fetch := fun _ => none

/-- A pagination paragraph whose digit tokens are descending, so the
last token (3rd) differs from the largest (1st). -/
def c4p : Node := Node.elem "p" [] (nodeList [Node.txt "3 2 1"])

/-- The pagination control around c4p. -/
def c4pagination : Node :=
  Node.elem "div" [("class", "pagination")] (nodeList [c4p])

/-- A listing page carrying the c4 pagination control. -/
def c4soup : Node := Node.elem "[document]" [] (nodeList [c4pagination])

/-- Fetch serving the c4 listing page for the first page of 1-1-2016. -/
def c4fetch : Fetch := fun url =>
  if url = archiveURL 2016 1 1 1 then some c4soup else none

/-- The article produced by the LaRepubblica initializer from the
11-character address abcdefghijk: everything default except the
truncated url. -/
def c9article : Article :=
  { url := "a", title := "", description := "", authors := "",
    publish_date := "", text := "", sect := "", subsection := "",
    keywords := [], characters := [], image_url := "", html := emptyDoc }

/-- C1 listing entry: passes every exclusion check, but its link has
only 10 characters, so the stored url after truncation is empty. -/
def c1entry : Node :=
  Node.elem "article" [] (nodeList [
    Node.elem "p" [] (nodeList [Node.txt "123456"]),
    Node.elem "span" [] (nodeList [Node.txt "xxxxxSub"]),
    Node.elem "time" [] (nodeList [Node.txt "1 gennaio 2016"]),
    Node.elem "a" [("href", "short.html")] (nodeList [])])

/-- C1 listing page holding the single entry. -/
def c1listing : Node := Node.elem "[document]" [] (nodeList [c1entry])

/-- C1 article page: an article element whose h1 is empty, so the
parsed title is the empty string; the body span keeps parse happy. -/
def c1page : Node :=
  Node.elem "[document]" [] (nodeList [
    Node.elem "article" [] (nodeList [Node.elem "h1" [] (nodeList [])]),
    Node.elem "span" [("itemprop", "articleBody")] (nodeList [Node.txt "body"])])

/-- C1 fetch: serves the listing for page 1 of 1-1-2016 and the article
page for the truncated (empty) url. -/
def c1fetch : Fetch := fun url =>
  if url = archiveURL 2016 1 1 1 then some c1listing
  else if url = "" then some c1page
  else none

/-- The record accumulated by the C1 run: empty url and empty title. -/
def c1res : Article :=
  { url := "", title := "", description := "", authors := "",
    publish_date := "1 gennaio 2016", text := "body", sect := "",
    subsection := "Sub", keywords := [], characters := [],
    image_url := "", html := c1page }

/-- C2 article page: title T, body b, one keyword k. -/
def c2soup : Node :=
  Node.elem "[document]" [] (nodeList [
    Node.elem "article" [] (nodeList [Node.elem "h1" [] (nodeList [Node.txt "T"])]),
    Node.elem "span" [("itemprop", "articleBody")] (nodeList [Node.txt "b"]),
    Node.elem "dl" [("class", "args")] (nodeList [
      Node.elem "dd" [] (nodeList [Node.txt "k"])])])

/-- C2 preview node carrying the date and subsection markers. -/
def c2preview : Node :=
  Node.elem "article" [] (nodeList [
    Node.elem "time" [] (nodeList [Node.txt "d"]),
    Node.elem "span" [] (nodeList [Node.txt "xxxxxS"])])

/-- C2 article before the first parse run. -/
def c2art : Article :=
  { url := "u", title := "", description := "", authors := "", publish_date := "",
    text := "", sect := "", subsection := "", keywords := [], characters := [],
    image_url := "", html := c2soup }

/-- C2 article after one parse run: one keyword. -/
def c2a1 : Article :=
  { url := "u", title := "T", description := "", authors := "", publish_date := "d",
    text := "b", sect := "", subsection := "S", keywords := ["k"], characters := [],
    image_url := "", html := c2soup }

/-- C2 article after a second parse run: the keyword twice. -/
def c2a2 : Article :=
  { url := "u", title := "T", description := "", authors := "", publish_date := "d",
    text := "b", sect := "", subsection := "S", keywords := ["k", "k"],
    characters := [], image_url := "", html := c2soup }

/-- C3 malformed entry: no paragraph node at all, so the first
exclusion conjunct raises AttributeError. -/
def c3badEntry : Node := Node.elem "article" [] (nodeList [])

/-- C3 listing page holding only the malformed entry. -/
def c3soup : Node := Node.elem "[document]" [] (nodeList [c3badEntry])

/-- C3 fetch serving a listing with only the malformed entry. -/
def c3fetch : Fetch := fun url =>
  if url = archiveURL 2016 1 1 1 then some c3soup else none

/-- C3 well-formed entry that passes the exclusion checks but whose
article download will fail (the fetch serves no other url). -/
def c3goodEntry : Node :=
  Node.elem "article" [] (nodeList [
    Node.elem "p" [] (nodeList [Node.txt "123456"]),
    Node.elem "span" [] (nodeList [Node.txt "xxxxxA"]),
    Node.elem "a" [("href", "longhref1234567890.html")] (nodeList [])])

/-- C3 listing page holding only the well-formed entry. -/
def c3soupA : Node := Node.elem "[document]" [] (nodeList [c3goodEntry])

/-- C3 fetch serving a listing with only the well-formed entry. -/
def c3fetchA : Fetch := fun url =>
  if url = archiveURL 2016 1 1 1 then some c3soupA else none

/-- C3 entry with a paragraph but no span anywhere: the crossword
conjunct dereferences the missing span and raises AttributeError. -/
def c3noSpanEntry : Node :=
  Node.elem "article" [] (nodeList [Node.elem "p" [] (nodeList [Node.txt "123456"])])

/-- C3 listing page holding only the span-free entry. -/
def c3soupB : Node := Node.elem "[document]" [] (nodeList [c3noSpanEntry])

/-- C3 fetch serving a listing with only the span-free entry. -/
def c3fetchB : Fetch := fun url =>
  if url = archiveURL 2016 1 1 1 then some c3soupB else none

/-- C6: an articleBody span that is present but has empty text. -/
def c6span : Node := Node.elem "span" [("itemprop", "articleBody")] (nodeList [])

/-- C6 article page: empty articleBody marker present, and a detail
body container with non-empty text Hello world. -/
def c6soup : Node :=
  Node.elem "[document]" [] (nodeList [
    Node.elem "article" [] (nodeList [Node.elem "h1" [] (nodeList [Node.txt "T"])]),
    Node.elem "time" [("itemprop", "datePublished")] (nodeList [Node.txt "d"]),
    c6span,
    Node.elem "div" [("class", "detail_body")] (nodeList [Node.txt "Hello world"])])

/-- C6 article before parse. -/
def c6art : Article :=
  { url := "u", title := "", description := "", authors := "", publish_date := "",
    text := "", sect := "", subsection := "", keywords := [], characters := [],
    image_url := "", html := c6soup }

/-- C6 parse result: the empty span was chosen, so text is empty. -/
def c6res : Article :=
  { url := "u", title := "T", description := "", authors := "", publish_date := "d",
    text := "", sect := "", subsection := "", keywords := [], characters := [],
    image_url := "", html := c6soup }

/-- C7 article page with no description metadata paragraph. -/
def c7soup : Node :=
  Node.elem "[document]" [] (nodeList [
    Node.elem "article" [] (nodeList [Node.elem "h1" [] (nodeList [Node.txt "T"])]),
    Node.elem "span" [("itemprop", "articleBody")] (nodeList [Node.txt "b"])])

/-- C7 preview whose first paragraph holds the fallback description. -/
def c7preview : Node :=
  Node.elem "article" [] (nodeList [
    Node.elem "p" [] (nodeList [Node.txt "Preview text"]),
    Node.elem "time" [] (nodeList [Node.txt "d"]),
    Node.elem "span" [] (nodeList [Node.txt "xxxxxS"])])

/-- C7 article before parse. -/
def c7art : Article :=
  { url := "u", title := "", description := "", authors := "", publish_date := "",
    text := "", sect := "", subsection := "", keywords := [], characters := [],
    image_url := "", html := c7soup }

/-! ### Helper lemmas -/

/-- datespan on an empty interval: no dates. -/
theorem datespan_nil (s e : Nat) (h : e ≤ s) : datespan s e = [] := by
  unfold datespan
  rw [Nat.sub_eq_zero_of_le h]
  rfl

/-- datespan on a nonempty interval: the start date, then the rest. -/
theorem datespan_cons (s e : Nat) (h : s < e) :
    datespan s e = s :: datespan (s + 1) e := by
  unfold datespan
  obtain ⟨k, hk⟩ : ∃ k, e - s = k + 1 := ⟨e - s - 1, by omega⟩
  have h2 : e - (s + 1) = k := by omega
  rw [hk, h2]
  show (if s < e then s :: datespanGo k (s + 1) e else []) = s :: datespanGo k (s + 1) e
  rw [if_pos h]

/-- Every date of the half-open interval appears exactly once. -/
theorem datespan_count (s e d : Nat) :
    (datespan s e).count d = if s ≤ d ∧ d < e then 1 else 0 := by
  obtain ⟨n, hn⟩ : ∃ n, n = e - s := ⟨e - s, rfl⟩
  induction n generalizing s with
  | zero =>
    rw [datespan_nil s e (by omega), if_neg (by omega)]
    rfl
  | succ k ih =>
    have hse : s < e := by omega
    rw [datespan_cons s e hse, List.count_cons, ih (s + 1) (by omega)]
    simp only [beq_iff_eq]
    split_ifs <;> omega

/-- A date is listed exactly when it lies in the half-open interval. -/
theorem datespan_mem (s e d : Nat) : d ∈ datespan s e ↔ s ≤ d ∧ d < e := by
  constructor
  · intro h
    have hpos := List.count_pos_iff.mpr h
    rw [datespan_count] at hpos
    by_contra hc
    rw [if_neg hc] at hpos
    omega
  · intro h
    have hc : (datespan s e).count d = 1 := by rw [datespan_count, if_pos h]
    exact List.count_pos_iff.mp (by omega)

/-- The dates are listed in strictly ascending order. -/
theorem datespan_pairwise (s e : Nat) :
    List.Pairwise (· < ·) (datespan s e) := by
  obtain ⟨n, hn⟩ : ∃ n, n = e - s := ⟨e - s, rfl⟩
  induction n generalizing s with
  | zero =>
    rw [datespan_nil s e (by omega)]
    exact List.Pairwise.nil
  | succ k ih =>
    have hse : s < e := by omega
    rw [datespan_cons s e hse]
    refine List.Pairwise.cons ?_ (ih (s + 1) (by omega))
    intro b hb
    have := (datespan_mem (s + 1) e b).mp hb
    omega

/-! ### C10 -/

/-- C10: Article construction fails with ArticleException exactly when
the url argument is None or the empty string; any other string yields a
record holding that url with every other field at its empty default. -/
theorem Article_init_exact (url : Option String) :
    ((url = none ∨ url = some "") →
      Article.init url = Except.error { msg := "ArticleException: Invalid URL" }) ∧
    (∀ s : String, url = some s → s ≠ "" →
      Article.init url = Except.ok
        { url := s, title := "", description := "", authors := "",
          publish_date := "", text := "", sect := "", subsection := "",
          keywords := [], characters := [], image_url := "", html := emptyDoc }) := by
  constructor
  · rintro (rfl | rfl) <;> rfl
  · rintro s rfl hs
    simp only [Article.init]
    rw [if_neg hs]

/-- Witness for C10 at the inputs some x, None and some empty. -/
theorem Article_init_exact_witness :
    Article.init (some "x") = Except.ok
      { url := "x", title := "", description := "", authors := "",
        publish_date := "", text := "", sect := "", subsection := "",
        keywords := [], characters := [], image_url := "", html := emptyDoc } ∧
    Article.init none = Except.error { msg := "ArticleException: Invalid URL" } ∧
    Article.init (some "") = Except.error { msg := "ArticleException: Invalid URL" } :=
  ⟨(Article_init_exact (some "x")).2 "x" rfl (by decide),
   (Article_init_exact none).1 (Or.inl rfl),
   (Article_init_exact (some "")).1 (Or.inr rfl)⟩

/-! ### C9 -/

/-- C9 counterexample: the 11-character address abcdefghijk carries no
tracking suffix, yet the stored url is not the input unchanged but the
input with its last 10 characters removed. -/
theorem LaRepubblica_init_not_suffix_only :
    (LaRepubblicaArticle.init (some "abcdefghijk")).map Article.url = Except.ok "a" ∧
    ("a" : String) ≠ "abcdefghijk" :=
  ⟨rfl, by decide⟩

/-- C9 amended: for every non-empty input address, the stored url is
the input with its final 10 characters removed unconditionally (the
removed characters are the final min 10 len characters, so an address of
at most 10 characters is stored as the empty string). -/
theorem LaRepubblica_init_url_truncation (s : String) (a : Article)
    (h : LaRepubblicaArticle.init (some s) = Except.ok a) :
    a.url.data ++ s.data.drop (s.data.length - 10) = s.data ∧
    a.url.data.length = s.data.length - 10 := by
  by_cases hs : s = ""
  · subst hs
    have hbad : LaRepubblicaArticle.init (some "")
        = Except.error { msg := "ArticleException: Invalid URL" } := rfl
    rw [hbad] at h
    exact absurd h (by simp)
  · have heval : LaRepubblicaArticle.init (some s) = Except.ok
        { url := pySliceToNeg s 10, title := "", description := "", authors := "",
          publish_date := "", text := "", sect := "", subsection := "",
          keywords := [], characters := [], image_url := "", html := emptyDoc } := by
      simp only [LaRepubblicaArticle.init, Article.init]
      rw [if_neg hs]
    rw [heval] at h
    injection h with h
    subst h
    constructor
    · show s.data.take (s.data.length - 10) ++ s.data.drop (s.data.length - 10) = s.data
      exact List.take_append_drop _ _
    · show (s.data.take (s.data.length - 10)).length = s.data.length - 10
      rw [List.length_take]
      omega

/-- Witness for C9 amended at the concrete address abcdefghijk. -/
theorem LaRepubblica_init_url_truncation_witness :
    c9article.url.data ++ ("abcdefghijk" : String).data.drop
        (("abcdefghijk" : String).data.length - 10) = ("abcdefghijk" : String).data ∧
    c9article.url.data.length = ("abcdefghijk" : String).data.length - 10 :=
  LaRepubblica_init_url_truncation "abcdefghijk" c9article rfl

/-! ### C4 -/

/-- C4 counterexample: with pagination text 3 2 1 the digit tokens are
3, 2, 1, whose largest is 3, but archive_size returns 1 (the last
token), so the page count is not the largest token. -/
theorem archive_size_last_not_largest :
    archive_size c4fetch 1 1 2016 = Except.ok 1 ∧
    (digitRuns (Node.text c4p).data).map natOfDigits = [3, 2, 1] ∧
    (1 : Int) ≠ 3 :=
  ⟨rfl, rfl, by decide⟩

/-- C4 amended: on a successful fetch, archive_size returns the value
of the last digit token of the text of the first paragraph of the
pagination control (not necessarily the largest token). -/
theorem archive_size_last_token (fetch : Fetch) (day month year : Nat)
    (soup pagination p : Node)
    (h1 : fetch (archiveURL year month day 1) = some soup)
    (h2 : soup.findTagAttr "div" "class" "pagination" = some pagination)
    (h3 : pagination.findTag "p" = some p)
    (h4 : digitRuns (Node.text p).data ≠ []) :
    archive_size fetch day month year
      = Except.ok (Int.ofNat (natOfDigits ((digitRuns (Node.text p).data).getLast h4))) := by
  simp only [archive_size, h1, h2, h3, List.getLast?_eq_getLast _ h4]

/-- Witness for C4 amended at the c4 inputs. -/
theorem archive_size_last_token_witness :
    archive_size c4fetch 1 1 2016
      = Except.ok (Int.ofNat (natOfDigits
          ((digitRuns (Node.text c4p).data).getLast (by decide)))) :=
  archive_size_last_token c4fetch 1 1 2016 c4soup c4pagination c4p rfl rfl rfl _

/-! ### C5 -/

/-- C5: when the fetch of the first listing page of a date fails,
archive_size returns the sentinel -1, distinct from zero, with no
uncaught error, and day mode for that date runs page mode for no page
numbers, leaving the accumulated articles unchanged and raising
nothing. -/
theorem archive_size_unavailable_day_noop (fetch : Fetch) (day month year : Nat)
    (articles : List Article)
    (h : fetch (archiveURL year month day 1) = none) :
    archive_size fetch day month year = Except.ok (-1) ∧
    (-1 : Int) ≠ 0 ∧
    pageRange (-1) = [] ∧
    extract_articles_day fetch day month year articles = (articles, none) := by
  have hsize : archive_size fetch day month year = Except.ok (-1) := by
    unfold archive_size
    rw [h]
  refine ⟨hsize, by decide, rfl, ?_⟩
  unfold extract_articles_day
  rw [hsize]
  rfl

/-- Witness for C5 with the always-failing fetch. -/
theorem archive_size_unavailable_day_noop_witness :
    archive_size fetchNone 1 1 2016 = Except.ok (-1) ∧
    (-1 : Int) ≠ 0 ∧
    pageRange (-1) = [] ∧
    extract_articles_day fetchNone 1 1 2016 [] = ([], none) :=
  archive_size_unavailable_day_noop fetchNone 1 1 2016 [] rfl

/-! ### C8 -/

/-- C8: range mode visits via datespan exactly the dates of the
half-open interval from the start date to the end date, each exactly
once, in strictly ascending order; on a nonempty interval it runs day
mode on the start date and recurses on the rest of the interval
(stopping only if that day raised), and on an empty interval it does
nothing. -/
theorem extract_articles_range_once_per_date (start_date end_date : Nat) :
    (∀ d : Nat, (datespan start_date end_date).count d
        = if start_date ≤ d ∧ d < end_date then 1 else 0) ∧
    List.Pairwise (· < ·) (datespan start_date end_date) ∧
    (∀ (fetch : Fetch) (toDMY : Nat → Nat × Nat × Nat) (articles : List Article),
      end_date ≤ start_date →
        extract_articles_range fetch toDMY start_date end_date articles
          = (articles, none)) ∧
    (∀ (fetch : Fetch) (toDMY : Nat → Nat × Nat × Nat) (articles : List Article),
      start_date < end_date →
        extract_articles_range fetch toDMY start_date end_date articles
          = match extract_articles_day fetch (toDMY start_date).1
                (toDMY start_date).2.1 (toDMY start_date).2.2 articles with
            | (acc2, none) =>
              extract_articles_range fetch toDMY (start_date + 1) end_date acc2
            | (acc2, some err) => (acc2, some err)) := by
  refine ⟨fun d => datespan_count _ _ d, datespan_pairwise _ _, ?_, ?_⟩
  · intro fetch toDMY articles h
    unfold extract_articles_range
    rw [datespan_nil _ _ h]
    rfl
  · intro fetch toDMY articles h
    unfold extract_articles_range
    rw [datespan_cons _ _ h]
    rfl

/-- Witness for C8 at the interval from 2 to 4 (and the empty interval
from 4 to 2). -/
theorem extract_articles_range_once_per_date_witness :
    (datespan 2 4).count 3 = (if 2 ≤ 3 ∧ 3 < 4 then 1 else 0) ∧
    extract_articles_range fetchNone (fun _ => (1, 1, 1)) 4 2 [] = ([], none) ∧
    extract_articles_range fetchNone (fun _ => (1, 1, 1)) 2 4 []
      = match extract_articles_day fetchNone 1 1 1 [] with
        | (acc2, none) => extract_articles_range fetchNone (fun _ => (1, 1, 1)) 3 4 acc2
        | (acc2, some err) => (acc2, some err) :=
  ⟨(extract_articles_range_once_per_date 2 4).1 3,
   (extract_articles_range_once_per_date 4 2).2.2.1 fetchNone (fun _ => (1, 1, 1)) [] (by omega),
   (extract_articles_range_once_per_date 2 4).2.2.2 fetchNone (fun _ => (1, 1, 1)) [] (by omega)⟩

/-! ### Parse inversion -/

/-- Inversion of a successful parse: every per-field extractor that can
raise succeeded, and each field of the result is the merge of its block
value with the previous field value. -/
theorem parse_ok_cases (self : Article) (preview_soup : Option Node) (a2 : Article)
    (h : LaRepubblicaArticle.parse self preview_soup = Except.ok a2) :
    ∃ title pdate textRes subsecRes imageRes,
      titleOf self.html = some title ∧
      publishDateOf self.html preview_soup = some pdate ∧
      textOf self.html = some textRes ∧
      subsectionOf preview_soup = some subsecRes ∧
      imageOf self.html = some imageRes ∧
      a2.url = self.url ∧
      a2.title = title ∧
      a2.description = (descriptionOf self.html).getD self.description ∧
      a2.authors = (authorsOf self.html).getD self.authors ∧
      a2.publish_date = pdate ∧
      a2.text = textRes.getD self.text ∧
      a2.sect = (sectionOf self.html).getD self.sect ∧
      a2.subsection = subsecRes.getD self.subsection ∧
      a2.keywords = self.keywords ++ keywordsOf self.html ∧
      a2.characters = self.characters ++ charactersOf self.html ∧
      a2.image_url = imageRes.getD self.image_url ∧
      a2.html = self.html := by
  unfold LaRepubblicaArticle.parse at h
  dsimp only at h
  split at h
  · rename_i title pdate textRes subsecRes imageRes h1 h2 h3 h4 h5
    injection h with h
    subst h
    exact ⟨title, pdate, textRes, subsecRes, imageRes, h1, h2, h3, h4, h5,
      rfl, rfl, rfl, rfl, rfl, rfl, rfl, rfl, rfl, rfl, rfl, rfl⟩
  · exact Except.noConfusion h

/-! ### C7 -/

/-- C7: on a page without the description metadata paragraph and with a
preview whose first paragraph is Preview text, the parsed description
stays empty: the fallback branch of the source computes the preview
paragraph but assigns it only to a local variable, never to the record
(the claim is right about the intent, the code drops the value). -/
theorem parse_description_fallback_dead :
    c7soup.findTagAttr "p" "itemprop" "description" = none ∧
    (c7preview.findTag "p").map Node.text = some "Preview text" ∧
    (LaRepubblicaArticle.parse c7art (some c7preview)).map Article.description
      = Except.ok "" :=
  ⟨rfl, rfl, rfl⟩

/-! ### C6 -/

/-- C6 counterexample: the articleBody marker is present with empty
text while the detail body holds Hello world; the extractor keeps the
empty marker text instead of moving on to the next container. -/
theorem parse_text_empty_marker_kept :
    (LaRepubblicaArticle.parse c6art none).map Article.text = Except.ok "" ∧
    (c6soup.findTagAttr "div" "class" "detail_body").map Node.text
      = some "Hello world" ∧
    ("" : String) ≠ "Hello world" :=
  ⟨rfl, rfl, by decide⟩

/-- C6 amended: the body text is taken from the first PRESENT container
in the fixed order (articleBody span, detail body div, first paragraph
of the nested content div), regardless of whether its text is empty;
when the first two are absent, the nested containers must exist and the
body is the first content paragraph when there is one, the previous
text value otherwise. -/
theorem parse_text_first_present (a : Article) (preview_soup : Option Node)
    (a2 : Article)
    (h : LaRepubblicaArticle.parse a preview_soup = Except.ok a2) :
    (∀ n, a.html.findTagAttr "span" "itemprop" "articleBody" = some n →
      a2.text = n.text) ∧
    (a.html.findTagAttr "span" "itemprop" "articleBody" = none →
      ∀ n, a.html.findTagAttr "div" "class" "detail_body" = some n →
        a2.text = n.text) ∧
    (a.html.findTagAttr "span" "itemprop" "articleBody" = none →
      a.html.findTagAttr "div" "class" "detail_body" = none →
      ∃ bt ct, a.html.findTagAttr "div" "class" "body-text" = some bt ∧
        bt.findTagAttr "div" "class" "content" = some ct ∧
        a2.text = ((ct.findTag "p").map Node.text).getD a.text) := by
  obtain ⟨title, pdate, textRes, subsecRes, imageRes, h1, h2, h3, h4, h5,
    hu, hti, hd, hau, hpd, htx, hse, hsu, hkw, hch, him, hh⟩ :=
    parse_ok_cases a preview_soup a2 h
  refine ⟨?_, ?_, ?_⟩
  · intro n hn
    unfold textOf at h3
    rw [hn] at h3
    injection h3 with h3
    rw [htx, ← h3]
    rfl
  · intro hnone n hn
    unfold textOf at h3
    rw [hnone, hn] at h3
    injection h3 with h3
    rw [htx, ← h3]
    rfl
  · intro hnone1 hnone2
    unfold textOf at h3
    rw [hnone1, hnone2] at h3
    dsimp only at h3
    cases hbt : a.html.findTagAttr "div" "class" "body-text" with
    | none =>
      rw [hbt] at h3
      exact Option.noConfusion h3
    | some bt =>
      rw [hbt] at h3
      dsimp only at h3
      cases hct : bt.findTagAttr "div" "class" "content" with
      | none =>
        rw [hct] at h3
        exact Option.noConfusion h3
      | some ct =>
        rw [hct] at h3
        injection h3 with h3
        refine ⟨bt, ct, rfl, hct, ?_⟩
        rw [htx, ← h3]

/-- Witness for C6 amended at the c6 inputs: the chosen container is
the present-but-empty articleBody span. -/
theorem parse_text_first_present_witness : c6res.text = c6span.text :=
  (parse_text_first_present c6art none c6res rfl).1 c6span rfl

/-! ### C2 -/

/-- C2 counterexample: running parse twice on the same article and
preview gives keywords k, k instead of the single k of one run, so the
keyword sequences of the first and second run differ. -/
theorem parse_twice_duplicates_keywords :
    (LaRepubblicaArticle.parse c2art (some c2preview)).map Article.keywords
      = Except.ok ["k"] ∧
    ((LaRepubblicaArticle.parse c2art (some c2preview)).bind
        (fun b => LaRepubblicaArticle.parse b (some c2preview))).map Article.keywords
      = Except.ok ["k", "k"] ∧
    (["k", "k"] : List String) ≠ ["k"] :=
  ⟨rfl, rfl, by decide⟩

/-- C2 amended: a second parse run on the same inputs reproduces every
scalar field of the first run, but appends the extracted keyword and
character batches once more, so those sequences agree with the first
run only when the extracted batches are empty. -/
theorem parse_twice_fields (a : Article) (preview_soup : Option Node) (a1 a2 : Article)
    (h1 : LaRepubblicaArticle.parse a preview_soup = Except.ok a1)
    (h2 : LaRepubblicaArticle.parse a1 preview_soup = Except.ok a2) :
    a2.url = a1.url ∧ a2.title = a1.title ∧ a2.description = a1.description ∧
    a2.authors = a1.authors ∧ a2.publish_date = a1.publish_date ∧
    a2.text = a1.text ∧ a2.sect = a1.sect ∧ a2.subsection = a1.subsection ∧
    a2.image_url = a1.image_url ∧ a2.html = a1.html ∧
    a2.keywords = a1.keywords ++ keywordsOf a.html ∧
    a2.characters = a1.characters ++ charactersOf a.html := by
  obtain ⟨t1, p1, x1, s1, i1, ht1, hp1, hx1, hq1, hi1,
    hu1, hti1, hd1, hau1, hpd1, htx1, hse1, hsu1, hkw1, hch1, him1, hh1⟩ :=
    parse_ok_cases a preview_soup a1 h1
  obtain ⟨t2, p2, x2, s2, i2, ht2, hp2, hx2, hq2, hi2,
    hu2, hti2, hd2, hau2, hpd2, htx2, hse2, hsu2, hkw2, hch2, him2, hh2⟩ :=
    parse_ok_cases a1 preview_soup a2 h2
  rw [hh1] at ht2 hp2 hx2 hi2 hd2 hau2 hse2 hkw2 hch2
  rw [ht1] at ht2
  rw [hp1] at hp2
  rw [hx1] at hx2
  rw [hq1] at hq2
  rw [hi1] at hi2
  injection ht2 with ht2
  injection hp2 with hp2
  injection hx2 with hx2
  injection hq2 with hq2
  injection hi2 with hi2
  subst ht2 hp2 hx2 hq2 hi2
  refine ⟨hu2, ?_, ?_, ?_, ?_, ?_, ?_, ?_, ?_, hh2, hkw2, hch2⟩
  · rw [hti2, hti1]
  · rw [hd2]
    cases hd : descriptionOf a.html with
    | none => rfl
    | some v =>
      rw [hd] at hd1
      rw [hd1]
      try rfl
  · rw [hau2]
    cases hd : authorsOf a.html with
    | none => rfl
    | some v =>
      rw [hd] at hau1
      rw [hau1]
      try rfl
  · rw [hpd2, hpd1]
  · rw [htx2]
    cases x1 with
    | none => rfl
    | some v => rw [htx1]; try rfl
  · rw [hse2]
    cases hd : sectionOf a.html with
    | none => rfl
    | some v =>
      rw [hd] at hse1
      rw [hse1]
      try rfl
  · rw [hsu2]
    cases s1 with
    | none => rfl
    | some v => rw [hsu1]; try rfl
  · rw [him2]
    cases i1 with
    | none => rfl
    | some v => rw [him1]; try rfl

/-- Witness for C2 amended at the c2 inputs. -/
theorem parse_twice_fields_witness :
    c2a2.url = c2a1.url ∧ c2a2.title = c2a1.title ∧
    c2a2.description = c2a1.description ∧ c2a2.authors = c2a1.authors ∧
    c2a2.publish_date = c2a1.publish_date ∧ c2a2.text = c2a1.text ∧
    c2a2.sect = c2a1.sect ∧ c2a2.subsection = c2a1.subsection ∧
    c2a2.image_url = c2a1.image_url ∧ c2a2.html = c2a1.html ∧
    c2a2.keywords = c2a1.keywords ++ keywordsOf c2art.html ∧
    c2a2.characters = c2a1.characters ++ charactersOf c2art.html :=
  parse_twice_fields c2art (some c2preview) c2a1 c2a2 rfl rfl

/-- One step of the page-mode entry loop, spelled out. -/
theorem processEntries_cons (fetch : Fetch) (e : Node) (rest : List Node)
    (acc : List Article) :
    processEntries fetch (e :: rest) acc
      = match entryCond e with
        | Except.error err => (acc, some err)
        | Except.ok false => processEntries fetch rest acc
        | Except.ok true =>
          match getHref e with
          | Except.error err => (acc, some err)
          | Except.ok href =>
            match buildArticle fetch href e with
            | Except.ok article => processEntries fetch rest (acc ++ [article])
            | Except.error _ => processEntries fetch rest acc := rfl

/-! ### C3 -/

/-- C3 counterexample: a listing whose single entry has no paragraph
node makes the exclusion-rule evaluation raise AttributeError, and the
error is not caught: it propagates out of page-mode extract_articles
instead of being logged and skipped. -/
theorem extract_articles_page_uncaught_entry_error :
    extract_articles_page c3fetch 1 1 2016 1 [] = ([], some PyErr.attributeError) :=
  rfl

/-- C3 amended: an ArticleException raised by one selected article
(failed fetch of the article page, or a parse failure on its markup) is
logged and skipped and page mode continues with the remaining entries;
but an error raised while evaluating the exclusion rules on a malformed
entry is uncaught and aborts the traversal of that listing page,
keeping only the articles accumulated before it. -/
theorem extract_articles_page_failure_policy
    (fetch : Fetch) (day month year page_num : Nat) (acc : List Article)
    (soup e : Node) (rest : List Node)
    (hf : fetch (archiveURL year month day page_num) = some soup)
    (hes : soup.findAllTag "article" = e :: rest) :
    (∀ err, entryCond e = Except.error err →
      extract_articles_page fetch day month year page_num acc = (acc, some err)) ∧
    (∀ href ex, entryCond e = Except.ok true → getHref e = Except.ok href →
      buildArticle fetch href e = Except.error ex →
      extract_articles_page fetch day month year page_num acc
        = processEntries fetch rest acc) ∧
    (entryCond e = Except.ok false →
      extract_articles_page fetch day month year page_num acc
        = processEntries fetch rest acc) := by
  have hpage : extract_articles_page fetch day month year page_num acc
      = processEntries fetch (e :: rest) acc := by
    unfold extract_articles_page
    rw [hf]
    dsimp only
    rw [hes]
  refine ⟨?_, ?_, ?_⟩
  · intro err hc
    rw [hpage, processEntries_cons, hc]
  · intro href ex hc hh hb
    rw [hpage, processEntries_cons, hc]
    dsimp only
    rw [hh]
    dsimp only
    rw [hb]
  · intro hc
    rw [hpage, processEntries_cons, hc]

/-- Witness for C3 amended: the span-free entry aborts page mode with
AttributeError; the failed-download entry is skipped and the loop goes
on with the (empty) remaining entries. -/
theorem extract_articles_page_failure_policy_witness :
    extract_articles_page c3fetchB 1 1 2016 1 [] = ([], some PyErr.attributeError) ∧
    extract_articles_page c3fetchA 1 1 2016 1 [] = processEntries c3fetchA [] [] :=
  ⟨(extract_articles_page_failure_policy c3fetchB 1 1 2016 1 [] c3soupB
      c3noSpanEntry [] rfl rfl).1 PyErr.attributeError rfl,
   (extract_articles_page_failure_policy c3fetchA 1 1 2016 1 [] c3soupA
      c3goodEntry [] rfl rfl).2.1 "longhref1234567890.html"
      { msg := "ArticleException: Article HTML is empty." } rfl rfl rfl⟩

/-! ### C1 -/

/-- Characterization of a successful try-block run: the href was
non-empty, the stored url is the truncated href, the article page was
fetched at that truncated url and the title is the text of the first h1
of the first article element of that page. -/
theorem buildArticle_ok_cases (fetch : Fetch) (href : String) (preview : Node)
    (a : Article) (h : buildArticle fetch href preview = Except.ok a) :
    href ≠ "" ∧ a.url = pySliceToNeg href 10 ∧
    ∃ doc art h1n, fetch (pySliceToNeg href 10) = some doc ∧ a.html = doc ∧
      doc.findTag "article" = some art ∧ art.findTag "h1" = some h1n ∧
      a.title = h1n.text := by
  by_cases hh : href = ""
  · subst hh
    have hbad : buildArticle fetch "" preview
        = Except.error { msg := "ArticleException: Invalid URL" } := rfl
    rw [hbad] at h
    exact Except.noConfusion h
  · have hinit : LaRepubblicaArticle.init (some href) = Except.ok
        { url := pySliceToNeg href 10, title := "", description := "", authors := "",
          publish_date := "", text := "", sect := "", subsection := "",
          keywords := [], characters := [], image_url := "", html := emptyDoc } := by
      simp only [LaRepubblicaArticle.init, Article.init]
      rw [if_neg hh]
    unfold buildArticle at h
    rw [hinit] at h
    dsimp only at h
    unfold Article.download at h
    dsimp only at h
    cases hf : fetch (pySliceToNeg href 10) with
    | none =>
      rw [hf] at h
      exact Except.noConfusion h
    | some doc =>
      rw [hf] at h
      dsimp only at h
      obtain ⟨title, pdate, textRes, subsecRes, imageRes, h1, h2, h3, h4, h5,
        hu, hti, hd, hau, hpd, htx, hse, hsu, hkw, hch, him, hhtml⟩ :=
        parse_ok_cases _ (some preview) a h
      unfold titleOf at h1
      dsimp only at h1
      rcases Option.bind_eq_some.mp h1 with ⟨art, hart, hmap⟩
      rcases Option.map_eq_some'.mp hmap with ⟨h1n, hh1, htt⟩
      exact ⟨hh, hu, doc, art, h1n, rfl, hhtml, hart, hh1, hti.trans htt.symm⟩

/-- Articles in the page-mode entry loop output either were already
accumulated or come from a successful try-block run on some entry. -/
theorem processEntries_origin (fetch : Fetch) (es : List Node) :
    ∀ (acc : List Article) (a : Article),
      a ∈ (processEntries fetch es acc).1 →
      a ∈ acc ∨ ∃ href preview, buildArticle fetch href preview = Except.ok a := by
  induction es with
  | nil => intro acc a ha; exact Or.inl ha
  | cons e rest ih =>
    intro acc a ha
    rw [processEntries_cons] at ha
    cases hc : entryCond e with
    | error err =>
      rw [hc] at ha
      exact Or.inl ha
    | ok b =>
      cases b with
      | false =>
        rw [hc] at ha
        exact ih acc a ha
      | true =>
        rw [hc] at ha
        dsimp only at ha
        cases hg : getHref e with
        | error err =>
          rw [hg] at ha
          exact Or.inl ha
        | ok href =>
          rw [hg] at ha
          dsimp only at ha
          cases hb : buildArticle fetch href e with
          | error ex =>
            rw [hb] at ha
            exact ih acc a ha
          | ok article =>
            rw [hb] at ha
            rcases ih _ a ha with hmem | hex
            · rcases List.mem_append.mp hmem with hmem2 | hmem2
              · exact Or.inl hmem2
              · obtain rfl := List.mem_singleton.mp hmem2
                exact Or.inr ⟨href, e, hb⟩
            · exact Or.inr hex

/-- Page-mode output articles either were accumulated before or come
from a successful try-block run. -/
theorem extract_articles_page_origin (fetch : Fetch) (day month year page_num : Nat)
    (acc : List Article) (a : Article)
    (ha : a ∈ (extract_articles_page fetch day month year page_num acc).1) :
    a ∈ acc ∨ ∃ href preview, buildArticle fetch href preview = Except.ok a := by
  unfold extract_articles_page at ha
  cases hf : fetch (archiveURL year month day page_num) with
  | none =>
    rw [hf] at ha
    exact Or.inl ha
  | some soup =>
    rw [hf] at ha
    exact processEntries_origin fetch _ acc a ha

/-- Sequential step execution preserves the origin property of the
accumulated articles. -/
theorem foldSteps_origin {β : Type} (P : Article → Prop)
    (step : List Article → β → List Article × Option PyErr)
    (hstep : ∀ acc b a, a ∈ (step acc b).1 → a ∈ acc ∨ P a) (l : List β) :
    ∀ (acc : List Article) (a : Article),
      a ∈ (foldSteps step l acc).1 → a ∈ acc ∨ P a := by
  induction l with
  | nil => intro acc a ha; exact Or.inl ha
  | cons b l ih =>
    intro acc a ha
    unfold foldSteps at ha
    cases hs : step acc b with
    | mk acc2 errOpt =>
      rw [hs] at ha
      cases errOpt with
      | none =>
        rcases ih acc2 a ha with h | h
        · rcases hstep acc b a (by rw [hs]; exact h) with h2 | h2
          · exact Or.inl h2
          · exact Or.inr h2
        · exact Or.inr h
      | some e2 =>
        rcases hstep acc b a (by rw [hs]; exact ha) with h2 | h2
        · exact Or.inl h2
        · exact Or.inr h2

/-- Day-mode output articles either were accumulated before or come
from a successful try-block run. -/
theorem extract_articles_day_origin (fetch : Fetch) (day month year : Nat)
    (acc : List Article) (a : Article)
    (ha : a ∈ (extract_articles_day fetch day month year acc).1) :
    a ∈ acc ∨ ∃ href preview, buildArticle fetch href preview = Except.ok a := by
  unfold extract_articles_day at ha
  cases hs : archive_size fetch day month year with
  | error err =>
    rw [hs] at ha
    exact Or.inl ha
  | ok pages =>
    rw [hs] at ha
    exact foldSteps_origin _ _
      (fun acc2 i a2 ha2 =>
        extract_articles_page_origin fetch day month year i acc2 a2 ha2)
      _ acc a ha

/-- Range-mode output articles either were accumulated before or come
from a successful try-block run. -/
theorem extract_articles_range_origin (fetch : Fetch)
    (toDMY : Nat → Nat × Nat × Nat) (start_date end_date : Nat)
    (acc : List Article) (a : Article)
    (ha : a ∈ (extract_articles_range fetch toDMY start_date end_date acc).1) :
    a ∈ acc ∨ ∃ href preview, buildArticle fetch href preview = Except.ok a := by
  unfold extract_articles_range at ha
  exact foldSteps_origin _ _
    (fun acc2 curr a2 ha2 =>
      extract_articles_day_origin fetch (toDMY curr).1 (toDMY curr).2.1
        (toDMY curr).2.2 acc2 a2 ha2)
    _ acc a ha

/-- C1 amended: after any extract_articles call, every article of the
accumulated output either was accumulated before the call or comes from
a successful try-block run on some entry href; for such an article the
url is the href with its final 10 characters removed (possibly empty
when the href is short) and the title is the text of the first h1 of
the first article element of the fetched page (possibly empty). -/
theorem extract_articles_accumulated_origin
    (fetch : Fetch) (toDMY : Nat → Nat × Nat × Nat) (fromYMD : Nat → Nat → Nat → Nat)
    (day month year : Nat) (page_num day_end month_end year_end : Option Nat)
    (articles : List Article) (a : Article)
    (ha : a ∈ (extract_articles fetch toDMY fromYMD day month year page_num
        day_end month_end year_end articles).1) :
    a ∈ articles ∨
      ∃ href preview doc art h1n, href ≠ "" ∧
        buildArticle fetch href preview = Except.ok a ∧
        a.url = pySliceToNeg href 10 ∧
        fetch a.url = some doc ∧ a.html = doc ∧
        doc.findTag "article" = some art ∧ art.findTag "h1" = some h1n ∧
        a.title = h1n.text := by
  have horigin : a ∈ articles ∨
      ∃ href preview, buildArticle fetch href preview = Except.ok a := by
    unfold extract_articles at ha
    cases page_num with
    | some p => exact extract_articles_page_origin fetch day month year p articles a ha
    | none =>
      cases day_end with
      | none => exact extract_articles_day_origin fetch day month year articles a ha
      | some de =>
        cases month_end with
        | none => exact extract_articles_day_origin fetch day month year articles a ha
        | some me =>
          cases year_end with
          | none => exact extract_articles_day_origin fetch day month year articles a ha
          | some ye =>
            exact extract_articles_range_origin fetch toDMY _ _ articles a ha
  rcases horigin with hmem | ⟨href, preview, hb⟩
  · exact Or.inl hmem
  · obtain ⟨hne, hurl, doc, art, h1n, hf, hhtml, hart, hh1, hti⟩ :=
      buildArticle_ok_cases fetch href preview a hb
    refine Or.inr ⟨href, preview, doc, art, h1n, hne, hb, hurl, ?_, hhtml, hart, hh1, hti⟩
    rw [hurl]
    exact hf

/-- C1 counterexample: one page-mode extract_articles call whose single
surviving entry has a 10-character href and an empty h1 accumulates an
article whose url and title are both empty strings. -/
theorem extract_articles_keeps_empty_url_title :
    ((extract_articles c1fetch (fun _ => (1, 1, 1)) (fun _ _ _ => 0) 1 1 2016
        (some 1) none none none []).1).map Article.url = [""] ∧
    ((extract_articles c1fetch (fun _ => (1, 1, 1)) (fun _ _ _ => 0) 1 1 2016
        (some 1) none none none []).1).map Article.title = [""] :=
  ⟨rfl, rfl⟩

/-- Witness for C1 amended at the c1 run. -/
theorem extract_articles_accumulated_origin_witness :
    c1res ∈ ([] : List Article) ∨
      ∃ href preview doc art h1n, href ≠ "" ∧
        buildArticle c1fetch href preview = Except.ok c1res ∧
        c1res.url = pySliceToNeg href 10 ∧
        c1fetch c1res.url = some doc ∧ c1res.html = doc ∧
        doc.findTag "article" = some art ∧ art.findTag "h1" = some h1n ∧
        c1res.title = h1n.text :=
  extract_articles_accumulated_origin c1fetch (fun _ => (1, 1, 1)) (fun _ _ _ => 0)
    1 1 2016 (some 1) none none none [] c1res
    (by
      have hres : (extract_articles c1fetch (fun _ => (1, 1, 1)) (fun _ _ _ => 0)
          1 1 2016 (some 1) none none none []).1 = [c1res] := rfl
      rw [hres]
      exact List.mem_singleton.mpr rfl)
